import Mathlib

/-!
Shallow embedding of the post-visibility filtering and ownership-authorization
core of the blogicum application (src/blogicum/blog/{models,mixins,views}.py).

Records are embedded as structures over Nat ids; the content store is a
structure of lists; the requesting identity is either anonymous or a user id;
time is an explicit Int parameter standing for timezone.now().
-/

namespace Blogicum

/-- Category record (models.py, class Category): title, description, unique
slug, published flag.  Only the fields the core reads are kept. -/
structure Category where
  id : Nat
  title : String
  slug : String
  is_published : Bool
deriving DecidableEq, Repr

/-- Post record (models.py, class Post): title, text, publication timestamp,
published flag, author FK, nullable location FK, nullable category FK
(on_delete=SET_NULL, null=True). -/
structure Post where
  id : Nat
  title : String
  text : String
  pub_date : Int
  is_published : Bool
  author : Nat
  location : Option Nat
  category : Option Nat
deriving DecidableEq, Repr

/-- Comment record (models.py, class Comment): text, post FK
(on_delete=CASCADE, related_name='comments'), author FK. -/
structure Comment where
  id : Nat
  text : String
  post : Nat
  author : Nat
deriving DecidableEq, Repr

/-- User record, with the four fields UserUpdateView exposes for editing
(username, first_name, last_name, email). -/
structure UserRec where
  id : Nat
  username : String
  first_name : String
  last_name : String
  email : String
deriving DecidableEq, Repr

/-- The content store: the Post, Category and Comment tables. -/
structure Store where
  posts : List Post
  categories : List Category
  comments : List Comment
deriving DecidableEq, Repr

/-- The requesting identity: request.user is either the anonymous sentinel or
an authenticated user, identified by id. -/
inductive Identity where
  | anonymous
  | user (uid : Nat)
deriving DecidableEq, Repr

/-- Q(category__is_published=True): the SQL join on the nullable category FK
matches exactly when the post has a category reference and the referenced
category row has is_published true; a post with category NULL does not match. -/
def categoryPublished (cats : List Category) (p : Post) : Bool :=
  match p.category with
  | none => false
  | some cid => cats.any fun c => c.id == cid && c.is_published

/-- The public-visibility conjunction of mixins.py line 53:
Q(is_published=True) and Q(pub_date__lte=timezone.now()) and
Q(category__is_published=True). -/
def publiclyVisible (cats : List Category) (now : Int) (p : Post) : Bool :=
  p.is_published && decide (p.pub_date ≤ now) && categoryPublished cats p

/-- The whole filter of get_filtered_related_posts: the public conjunction,
OR-ed with Q(author=user) when author_access_flag is set and the requesting
user is not anonymous (mixins.py lines 58-60). -/
def postVisible (cats : List Category) (now : Int) (ident : Identity)
    (author_access_flag : Bool) (p : Post) : Bool :=
  match ident with
  | .anonymous => publiclyVisible cats now p
  | .user uid =>
    if author_access_flag then publiclyVisible cats now p || (p.author == uid)
    else publiclyVisible cats now p

/-- A post as returned by get_filtered_related_posts: the record plus the
comment_count annotation (Count('comments')). -/
structure AnnotatedPost where
  post : Post
  comment_count : Nat
deriving DecidableEq, Repr

/-- The annotation step: attach the number of Comment rows whose post FK is
this post. -/
def annotatePost (st : Store) (p : Post) : AnnotatedPost :=
  { post := p, comment_count := (st.comments.filter fun c => c.post == p.id).length }

/-- FilterAnnotateOrderPostsMixin.get_filtered_related_posts (mixins.py lines
45-68): filter the received posts by the visibility predicate, annotate each
with comment_count, and order by pub_date descending (order_by('-pub_date'),
embedded as a stable sort).  In the source, posts defaults to
Post.objects.all(); callers here pass the base collection explicitly. -/
def get_filtered_related_posts (st : Store) (posts : List Post) (now : Int)
    (ident : Identity) (author_access_flag : Bool) : List AnnotatedPost :=
  List.insertionSort (fun a b => b.post.pub_date ≤ a.post.pub_date)
    ((posts.filter (postVisible st.categories now ident author_access_flag)).map
      (annotatePost st))

/-- One call of get_filtered_related_posts together with the state it leaves
behind: the function only reads the store and the base collection, so the call
returns them unchanged alongside the result. -/
def filteredPostsCall (st : Store) (posts : List Post) (now : Int)
    (ident : Identity) (author_access_flag : Bool) :
    List AnnotatedPost × Store × List Post :=
  (get_filtered_related_posts st posts now ident author_access_flag, st, posts)

/-- Named redirect targets used by the views (reverse(...) calls). -/
inductive Target where
  | postDetail (post_id : Nat)
  | index
  | login
  | profile (username : String)
deriving DecidableEq, Repr

/-- Outcome of a view request: success (with the success-url redirect),
Http404, or a redirect issued instead of performing the operation. -/
inductive MutationOutcome where
  | success (redirect_to : Target)
  | notFound
  | redirect (target : Target)
deriving DecidableEq, Repr

/-- What the comment views' get_object can produce: the comment, the
success-url (the author-mismatch branch returns get_success_url()), or
Http404 when the queryset has no row with the requested pk. -/
inductive GetObjectResult where
  | obj (c : Comment)
  | redirectUrl (t : Target)
  | notFound
deriving DecidableEq, Repr

/-- PostDetailView.get_object (views.py lines 103-109): look the pk up in
get_filtered_related_posts(queryset, author_access_flag=True); DetailView
raises Http404 (none) when the filtered queryset has no such row. -/
def postDetailGetObject (st : Store) (now : Int) (ident : Identity)
    (post_id : Nat) : Option AnnotatedPost :=
  (get_filtered_related_posts st st.posts now ident true).find?
    fun ap => ap.post.id == post_id

/-- The editable Post fields submitted through the post form (forms.py is not
part of the core sources; the form carries the Post fields other than author,
which SetAuthorMixin manages on create). -/
structure PostFormData where
  title : String
  text : String
  pub_date : Int
  location : Option Nat
  category : Option Nat
deriving DecidableEq, Repr

/-- Modelled from the spec: applying the submitted post form to the fetched
instance replaces the editable fields and leaves id and author untouched
(forms.py itself is outside the provided sources). -/
def applyPostForm (f : PostFormData) (p : Post) : Post :=
  { p with title := f.title, text := f.text, pub_date := f.pub_date,
           location := f.location, category := f.category }

/-- PostEditView.get_object (views.py lines 138-145): like the detail view,
the pk is looked up in the author-access filtered queryset. -/
def postEditGetObject (st : Store) (now : Int) (ident : Identity)
    (post_id : Nat) : Option AnnotatedPost :=
  (get_filtered_related_posts st st.posts now ident true).find?
    fun ap => ap.post.id == post_id

/-- A POST request to PostEditView (views.py lines 118-145).  The post()
override redirects anonymous users to the post detail page (not to login);
otherwise get_object fetches from the filtered queryset (Http404 when
absent), and form_valid redirects a non-author to the post detail page,
while the author's edit is saved and answered with the success url. -/
def postEditView (st : Store) (now : Int) (ident : Identity) (post_id : Nat)
    (f : PostFormData) : MutationOutcome × Store :=
  match ident with
  | .anonymous => (.redirect (.postDetail post_id), st)
  | .user uid =>
    match postEditGetObject st now ident post_id with
    | none => (.notFound, st)
    | some ap =>
      if uid != ap.post.author then (.redirect (.postDetail ap.post.id), st)
      else (.success (.postDetail post_id),
        { st with posts := st.posts.map fun q =>
            if q.id == ap.post.id then applyPostForm f q else q })

/-- PostDeleteView.get_queryset (views.py lines 154-158): the author's own
posts for an authenticated user, Post.objects.none() otherwise. -/
def postDeleteGetQueryset (st : Store) (ident : Identity) : List Post :=
  match ident with
  | .anonymous => []
  | .user uid => st.posts.filter fun p => p.author == uid

/-- A request to PostDeleteView (views.py lines 148-166): get_object looks
the pk up in the pre-filtered queryset (Http404 when absent, which covers
both anonymous users and non-authors); on success the post is deleted, its
comments cascade away (Comment.post has on_delete=CASCADE), and the view
redirects to the index success url. -/
def postDeleteView (st : Store) (ident : Identity) (post_id : Nat) :
    MutationOutcome × Store :=
  match (postDeleteGetQueryset st ident).find? (fun p => p.id == post_id) with
  | none => (.notFound, st)
  | some p =>
    (.success .index,
      { st with posts := st.posts.filter fun q => !(q.id == p.id),
                comments := st.comments.filter fun c => !(c.post == p.id) })

/-- CommentUpdateView.get_object (views.py lines 201-210): the candidate
queryset is pre-filtered to the requesting user's own comments; a missing pk
is Http404; the author-mismatch branch would return the success url. -/
def commentUpdateGetObject (st : Store) (uid : Nat) (post_id comment_id : Nat) :
    GetObjectResult :=
  match (st.comments.filter fun c => c.author == uid).find?
      (fun c => c.id == comment_id) with
  | none => .notFound
  | some c =>
    if uid != c.author then .redirectUrl (.postDetail post_id) else .obj c

/-- CommentDeleteView.get_object (views.py lines 220-229): textually the same
body as CommentUpdateView.get_object. -/
def commentDeleteGetObject (st : Store) (uid : Nat) (post_id comment_id : Nat) :
    GetObjectResult :=
  match (st.comments.filter fun c => c.author == uid).find?
      (fun c => c.id == comment_id) with
  | none => .notFound
  | some c =>
    if uid != c.author then .redirectUrl (.postDetail post_id) else .obj c

/-- A request to CommentUpdateView (views.py lines 193-210): LoginRequiredMixin
sends anonymous users to login; then get_object decides, and a fetched comment
has its text replaced (CommentForm carries the text field). -/
def commentEditView (st : Store) (ident : Identity) (post_id comment_id : Nat)
    (newText : String) : MutationOutcome × Store :=
  match ident with
  | .anonymous => (.redirect .login, st)
  | .user uid =>
    match commentUpdateGetObject st uid post_id comment_id with
    | .notFound => (.notFound, st)
    | .redirectUrl t => (.redirect t, st)
    | .obj c =>
      (.success (.postDetail post_id),
        { st with comments := st.comments.map fun d =>
            if d.id == c.id then { d with text := newText } else d })

/-- A request to CommentDeleteView (views.py lines 213-229): LoginRequiredMixin
sends anonymous users to login; then get_object decides, and a fetched comment
is deleted. -/
def commentDeleteView (st : Store) (ident : Identity)
    (post_id comment_id : Nat) : MutationOutcome × Store :=
  match ident with
  | .anonymous => (.redirect .login, st)
  | .user uid =>
    match commentDeleteGetObject st uid post_id comment_id with
    | .notFound => (.notFound, st)
    | .redirectUrl t => (.redirect t, st)
    | .obj c =>
      (.success (.postDetail post_id),
        { st with comments := st.comments.filter fun d => !(d.id == c.id) })

/-- CategoryDetailView.get_queryset (views.py lines 243-244): only published
categories are candidates, for every identity. -/
def categoryDetailGetQueryset (st : Store) : List Category :=
  st.categories.filter fun c => c.is_published

/-- CategoryDetailView object lookup by slug over the published-only
queryset; DetailView raises Http404 (none) when no row matches.  The identity
parameter records that the lookup never consults the requesting identity. -/
def categoryDetailGetObject (st : Store) (ident : Identity) (slug : String) :
    Option Category :=
  (categoryDetailGetQueryset st).find? fun c => c.slug == slug

/-- The profile form of UserUpdateView (fields username, first_name,
last_name, email; views.py line 55). -/
structure ProfileForm where
  username : String
  first_name : String
  last_name : String
  email : String
deriving DecidableEq, Repr

/-- Applying the profile form replaces exactly the four exposed fields. -/
def applyProfileForm (f : ProfileForm) (u : UserRec) : UserRec :=
  { u with username := f.username, first_name := f.first_name,
           last_name := f.last_name, email := f.email }

/-- A request to UserUpdateView (views.py lines 50-65): LoginRequiredMixin
sends anonymous users to login; get_object returns self.request.user,
ignoring the username URL kwarg, so OnlyUserSelfMixin's test
(object == request.user) always passes and the requester's own record is the
one updated; the success url is the profile of the (possibly renamed)
requesting user. -/
def userUpdateView (users : List UserRec) (ident : Identity)
    (url_username : String) (f : ProfileForm) :
    MutationOutcome × List UserRec :=
  match ident with
  | .anonymous => (.redirect .login, users)
  | .user uid =>
    (.success (.profile f.username),
      users.map fun u => if u.id == uid then applyProfileForm f u else u)

/-- Modelled from the spec: Paginator's page count with page size per_page —
ceiling division, with an empty sequence still yielding one (empty) page.
The Paginator class itself is framework code outside these sources. -/
def num_pages (count per_page : Nat) : Nat :=
  max 1 ((count + per_page - 1) / per_page)

/-- Modelled from the spec: Paginator.get_page clamps an out-of-range page
number (below 1 or beyond the last page) to the last valid page instead of
erroring, then returns that page's slice of the sequence. -/
def get_page {α : Type} (items : List α) (number : Int) (per_page : Nat) :
    List α :=
  let np := num_pages items.length per_page
  let n : Nat := if number < 1 ∨ (np : Int) < number then np else number.toNat
  (items.drop ((n - 1) * per_page)).take per_page

/-- The ordered sequence behind the index listing (PostListView, views.py
lines 85-93): all posts, author_access_flag=False. -/
def indexSequence (st : Store) (now : Int) (ident : Identity) :
    List AnnotatedPost :=
  get_filtered_related_posts st st.posts now ident false

/-- The index listing page: Paginator(..., 10).get_page(...) (views.py lines
87-92). -/
def postListPage (st : Store) (now : Int) (ident : Identity) (page : Int) :
    List AnnotatedPost :=
  get_page (indexSequence st now ident) page 10

/-- The ordered sequence behind the profile listing (UserDetailView, views.py
lines 37-43): the profile author's posts, author_access_flag=True. -/
def profileSequence (st : Store) (now : Int) (ident : Identity)
    (author_id : Nat) : List AnnotatedPost :=
  get_filtered_related_posts st (st.posts.filter fun p => p.author == author_id)
    now ident true

/-- The profile listing page: Paginator(..., 10).get_page(...) (views.py
lines 37-46). -/
def profilePage (st : Store) (now : Int) (ident : Identity) (author_id : Nat)
    (page : Int) : List AnnotatedPost :=
  get_page (profileSequence st now ident author_id) page 10

/-- The ordered sequence behind the category listing (CategoryDetailView,
views.py lines 249-253): the category's posts, author_access_flag=False. -/
def categorySequence (st : Store) (now : Int) (ident : Identity)
    (cat_id : Nat) : List AnnotatedPost :=
  get_filtered_related_posts st
    (st.posts.filter fun p => p.category == some cat_id) now ident false

/-- The category listing page: Paginator(..., 10).get_page(...) (views.py
lines 249-257). -/
def categoryPage (st : Store) (now : Int) (ident : Identity) (cat_id : Nat)
    (page : Int) : List AnnotatedPost :=
  get_page (categorySequence st now ident cat_id) page 10

/-! Concrete example data used by witnesses and counterexamples. -/

/-- An unpublished category. -/
def exCategoryHidden : Category :=
  { id := 1, title := "hidden cat", slug := "hidden", is_published := false }

/-- A published category. -/
def exCategoryPub : Category :=
  { id := 2, title := "pub cat", slug := "pub", is_published := true }

/-- A published, past-dated post whose category is the unpublished one. -/
def exPostHiddenCat : Post :=
  { id := 1, title := "t1", text := "b1", pub_date := 0, is_published := true,
    author := 7, location := none, category := some 1 }

/-- A published, past-dated post with no category reference. -/
def exPostNoCat : Post :=
  { id := 2, title := "t2", text := "b2", pub_date := 0, is_published := true,
    author := 3, location := none, category := none }

/-- A fully publicly visible post. -/
def exPostPub : Post :=
  { id := 3, title := "t3", text := "b3", pub_date := 0, is_published := true,
    author := 7, location := none, category := some 2 }

/-- A comment by user 2 on the public post. -/
def exCommentV : Comment :=
  { id := 7, text := "c1", post := 3, author := 2 }

/-- The example store. -/
def exStore : Store :=
  { posts := [exPostHiddenCat, exPostNoCat, exPostPub],
    categories := [exCategoryHidden, exCategoryPub],
    comments := [exCommentV] }

/-- Example submitted post form data. -/
def exPostForm : PostFormData :=
  { title := "t9", text := "b9", pub_date := 0, location := none,
    category := some 2 }

/-- Example submitted profile form data. -/
def exProfileForm : ProfileForm :=
  { username := "neo", first_name := "n", last_name := "o", email := "n@o" }

/-- Two example user records. -/
def exUserA : UserRec :=
  { id := 1, username := "a", first_name := "a", last_name := "a", email := "a@a" }

/-- Second example user record. -/
def exUserB : UserRec :=
  { id := 2, username := "b", first_name := "b", last_name := "b", email := "b@b" }

/-! Helper lemmas about the embedding. -/

/-- Two annotated posts built from the same store agree iff the underlying
posts agree. -/
lemma annotatePost_inj {st : Store} {p q : Post}
    (h : annotatePost st p = annotatePost st q) : p = q :=
  congrArg AnnotatedPost.post h

/-- Membership in the result of get_filtered_related_posts: exactly the base
posts passing the visibility predicate, carried with their annotation. -/
lemma mem_filtered_iff {st : Store} {posts : List Post} {now : Int}
    {ident : Identity} {flag : Bool} {ap : AnnotatedPost} :
    ap ∈ get_filtered_related_posts st posts now ident flag ↔
      ∃ p, p ∈ posts ∧ postVisible st.categories now ident flag p = true ∧
        ap = annotatePost st p := by
  unfold get_filtered_related_posts
  rw [List.mem_insertionSort, List.mem_map]
  constructor
  · rintro ⟨p, hp, rfl⟩
    exact ⟨p, (List.mem_filter.1 hp).1, (List.mem_filter.1 hp).2, rfl⟩
  · rintro ⟨p, hp, hvis, rfl⟩
    exact ⟨p, List.mem_filter.2 ⟨hp, hvis⟩, rfl⟩

/-- The public-visibility boolean, spelled out as a proposition: published,
time-gated, and referencing an existing published category. -/
lemma publiclyVisible_iff {cats : List Category} {now : Int} {P : Post} :
    publiclyVisible cats now P = true ↔
      P.is_published = true ∧ P.pub_date ≤ now ∧
        ∃ c, c ∈ cats ∧ P.category = some c.id ∧ c.is_published = true := by
  unfold publiclyVisible categoryPublished
  cases hcat : P.category with
  | none => simp
  | some cid =>
    simp only [Bool.and_eq_true, decide_eq_true_eq, List.any_eq_true]
    constructor
    · rintro ⟨⟨hp, ht⟩, c, hc, hid, hcp⟩
      exact ⟨hp, ht, c, hc, by rw [eq_of_beq hid], hcp⟩
    · rintro ⟨hp, ht, c, hc, hsome, hcp⟩
      refine ⟨⟨hp, ht⟩, c, hc, ?_, hcp⟩
      rw [Option.some_inj] at hsome
      exact beq_iff_eq.2 hsome.symm

/-- When the requester is anonymous or the flag is off, the whole filter is
just the public predicate. -/
lemma postVisible_public {cats : List Category} {now : Int} {ident : Identity}
    {flag : Bool} (hcond : ident = Identity.anonymous ∨ flag = false)
    (P : Post) :
    postVisible cats now ident flag P = publiclyVisible cats now P := by
  rcases hcond with h | h
  · rw [h]; rfl
  · cases ident with
    | anonymous => rfl
    | user uid => rw [h]; rfl

/-- A post whose referenced category row is unpublished fails the category
condition (given unique category ids). -/
lemma categoryPublished_false {cats : List Category} {P : Post} {c : Category}
    (hc : c ∈ cats) (hcid : P.category = some c.id)
    (hunpub : c.is_published = false)
    (hnodup : (cats.map Category.id).Nodup) :
    categoryPublished cats P = false := by
  unfold categoryPublished
  rw [hcid]
  rw [List.any_eq_false]
  intro d hd hbeq
  rw [Bool.and_eq_true] at hbeq
  obtain ⟨hid, hdp⟩ := hbeq
  have hdc : d = c := List.inj_on_of_nodup_map hnodup hd hc (eq_of_beq hid)
  rw [hdc, hunpub] at hdp
  exact Bool.false_ne_true hdp

/-- A post whose referenced category row is unpublished is not publicly
visible. -/
lemma publiclyVisible_false_of_hidden_cat {cats : List Category} {now : Int}
    {P : Post} {c : Category} (hc : c ∈ cats) (hcid : P.category = some c.id)
    (hunpub : c.is_published = false)
    (hnodup : (cats.map Category.id).Nodup) :
    publiclyVisible cats now P = false := by
  unfold publiclyVisible
  rw [categoryPublished_false hc hcid hunpub hnodup]
  simp

/-- Looking a comment up by pk in the requester-authored sub-collection finds
nothing when the target comment belongs to someone else (given unique comment
ids). -/
lemma find_author_filtered_comment_none {comments : List Comment} {u : Nat}
    {c : Comment} (hc : c ∈ comments) (hne : c.author ≠ u)
    (hnodup : (comments.map Comment.id).Nodup) :
    (comments.filter fun d => d.author == u).find?
      (fun d => d.id == c.id) = none := by
  rw [List.find?_eq_none]
  intro d hd hbeq
  have hmem := (List.mem_filter.1 hd).1
  have hdu : d.author = u := eq_of_beq (List.mem_filter.1 hd).2
  have hdc : d = c := List.inj_on_of_nodup_map hnodup hmem hc (eq_of_beq hbeq)
  rw [hdc] at hdu
  exact hne hdu

/-- Looking a post up by pk in the requester-authored sub-collection finds
nothing when the target post belongs to someone else (given unique post
ids). -/
lemma find_author_filtered_post_none {posts : List Post} {u : Nat}
    {p : Post} (hp : p ∈ posts) (hne : p.author ≠ u)
    (hnodup : (posts.map Post.id).Nodup) :
    (posts.filter fun q => q.author == u).find?
      (fun q => q.id == p.id) = none := by
  rw [List.find?_eq_none]
  intro q hq hbeq
  have hmem := (List.mem_filter.1 hq).1
  have hqu : q.author = u := eq_of_beq (List.mem_filter.1 hq).2
  have hqp : q = p := List.inj_on_of_nodup_map hnodup hmem hp (eq_of_beq hbeq)
  rw [hqp] at hqu
  exact hne hqu

/-- The two comment get_object bodies are textually identical in the source
and therefore equal functions. -/
lemma commentDeleteGetObject_eq :
    commentDeleteGetObject = commentUpdateGetObject := rfl

/-! Claim theorems. -/

/-- Claim C5, counterexample: an anonymous POST to the post-edit view is
answered with a redirect to the post detail page, not to the login page, and
an anonymous post-delete request is answered with not-found — neither is the
required-login redirect the claim demands. -/
theorem c5_counterexample :
    postEditView exStore 1 Identity.anonymous 3 exPostForm =
      (MutationOutcome.redirect (Target.postDetail 3), exStore)
    ∧ MutationOutcome.redirect (Target.postDetail 3) ≠
        MutationOutcome.redirect Target.login
    ∧ (postDeleteView exStore Identity.anonymous 3).1 =
        MutationOutcome.notFound := by
  refine ⟨rfl, ?_, rfl⟩
  decide

/-- Claim C5, amended: for anonymous mutation requests, only the comment
views (which carry LoginRequiredMixin) redirect to login; PostEditView's
post() override redirects the anonymous user to the post detail page, and
PostDeleteView resolves an anonymous request against an empty queryset,
yielding not-found.  No mutation is ever completed. -/
theorem c5_amended (st : Store) (now : Int) (post_id comment_id : Nat)
    (f : PostFormData) (t : String) :
    postEditView st now Identity.anonymous post_id f =
      (MutationOutcome.redirect (Target.postDetail post_id), st)
    ∧ postDeleteView st Identity.anonymous post_id =
        (MutationOutcome.notFound, st)
    ∧ commentEditView st Identity.anonymous post_id comment_id t =
        (MutationOutcome.redirect Target.login, st)
    ∧ commentDeleteView st Identity.anonymous post_id comment_id =
        (MutationOutcome.redirect Target.login, st) :=
  ⟨rfl, rfl, rfl, rfl⟩

/-- Claim C6: a category whose published flag is false resolves to not-found
in the category detail view for every requesting identity, because the
candidate queryset keeps only published categories and never consults the
identity. -/
theorem c6_hidden_category_not_found (st : Store) (ident : Identity)
    (c : Category) (hc : c ∈ st.categories) (hunpub : c.is_published = false)
    (hnodup : (st.categories.map Category.slug).Nodup) :
    categoryDetailGetObject st ident c.slug = none := by
  unfold categoryDetailGetObject categoryDetailGetQueryset
  rw [List.find?_eq_none]
  intro d hd hbeq
  have hmem := (List.mem_filter.1 hd).1
  have hdp : d.is_published = true := (List.mem_filter.1 hd).2
  have hdc : d = c := List.inj_on_of_nodup_map hnodup hmem hc (eq_of_beq hbeq)
  rw [hdc, hunpub] at hdp
  exact Bool.false_ne_true hdp

/-- Witness for C6 at a concrete store: the unpublished category's slug
resolves to none for an anonymous and for an authenticated identity. -/
theorem c6_witness :
    (exCategoryHidden ∈ exStore.categories
      ∧ exCategoryHidden.is_published = false
      ∧ (exStore.categories.map Category.slug).Nodup)
    ∧ categoryDetailGetObject exStore Identity.anonymous
        exCategoryHidden.slug = none
    ∧ categoryDetailGetObject exStore (Identity.user 7)
        exCategoryHidden.slug = none :=
  ⟨by decide,
    c6_hidden_category_not_found exStore Identity.anonymous exCategoryHidden
      (by decide) (by decide) (by decide),
    c6_hidden_category_not_found exStore (Identity.user 7) exCategoryHidden
      (by decide) (by decide) (by decide)⟩

/-- Claim C7: get_filtered_related_posts is a pure read — a call returns the
store and the base collection unchanged, and a second call made with the
data left behind by the first yields the identical ordered output. -/
theorem c7_filtered_posts_pure (st : Store) (posts : List Post) (now : Int)
    (ident : Identity) (flag : Bool) :
    (filteredPostsCall st posts now ident flag).2 = (st, posts)
    ∧ (filteredPostsCall st posts now ident flag).1 =
        (filteredPostsCall (filteredPostsCall st posts now ident flag).2.1
          (filteredPostsCall st posts now ident flag).2.2 now ident flag).1 :=
  ⟨rfl, rfl⟩

/-- Claim C9: the profile-edit operation always selects and mutates the
requesting user's own record; the username in the URL has no effect on the
outcome, and every other user's record is left in place unchanged. -/
theorem c9_profile_edit_self_only (users : List UserRec) (uid : Nat)
    (url1 url2 : String) (f : ProfileForm) :
    userUpdateView users (Identity.user uid) url1 f =
      userUpdateView users (Identity.user uid) url2 f
    ∧ (userUpdateView users (Identity.user uid) url1 f).2 =
        users.map (fun v => if v.id == uid then applyProfileForm f v else v)
    ∧ ∀ v ∈ users, v.id ≠ uid →
        v ∈ (userUpdateView users (Identity.user uid) url1 f).2 := by
  refine ⟨rfl, rfl, ?_⟩
  intro v hv hne
  have hfix : (fun v => if v.id == uid then applyProfileForm f v else v) v = v := by
    simp only [beq_iff_eq]
    exact if_neg hne
  exact hfix ▸ List.mem_map_of_mem _ hv

/-- Witness for C9 at a concrete store: user 1 edits through a URL naming
user b; only user 1's record changes and user 2's record survives. -/
theorem c9_witness :
    (exUserB ∈ [exUserA, exUserB] ∧ exUserB.id ≠ 1)
    ∧ (userUpdateView [exUserA, exUserB] (Identity.user 1) "b" exProfileForm =
        userUpdateView [exUserA, exUserB] (Identity.user 1) "a" exProfileForm
      ∧ (userUpdateView [exUserA, exUserB] (Identity.user 1) "b"
            exProfileForm).2 =
          [exUserA, exUserB].map
            (fun v => if v.id == 1 then applyProfileForm exProfileForm v else v)
      ∧ exUserB ∈ (userUpdateView [exUserA, exUserB] (Identity.user 1) "b"
            exProfileForm).2) :=
  ⟨by decide,
    (c9_profile_edit_self_only [exUserA, exUserB] 1 "b" "a" exProfileForm).1,
    (c9_profile_edit_self_only [exUserA, exUserB] 1 "b" "a" exProfileForm).2.1,
    (c9_profile_edit_self_only [exUserA, exUserB] 1 "b" "a"
      exProfileForm).2.2 exUserB (by decide) (by decide)⟩

/-- Claim C10: in both comment mutation views, get_object never takes the
author-mismatch branch — the candidate queryset is pre-filtered to the
requester's own comments, so the result is either not-found or a comment
the requester authored. -/
theorem c10_mismatch_branch_unreachable (st : Store)
    (uid post_id comment_id : Nat) :
    (∀ t, commentUpdateGetObject st uid post_id comment_id ≠
        GetObjectResult.redirectUrl t)
    ∧ (∀ t, commentDeleteGetObject st uid post_id comment_id ≠
        GetObjectResult.redirectUrl t)
    ∧ (∀ c, commentUpdateGetObject st uid post_id comment_id =
        GetObjectResult.obj c → c.author = uid)
    ∧ (∀ c, commentDeleteGetObject st uid post_id comment_id =
        GetObjectResult.obj c → c.author = uid) := by
  have key : (∀ t, commentUpdateGetObject st uid post_id comment_id ≠
        GetObjectResult.redirectUrl t)
      ∧ ∀ c, commentUpdateGetObject st uid post_id comment_id =
        GetObjectResult.obj c → c.author = uid := by
    unfold commentUpdateGetObject
    cases hfind : (st.comments.filter fun c => c.author == uid).find?
        (fun c => c.id == comment_id) with
    | none => exact ⟨fun t h => by simp at h, fun c h => by simp at h⟩
    | some c =>
      have hc := List.mem_of_find?_eq_some hfind
      have hau : c.author = uid := eq_of_beq (List.mem_filter.1 hc).2
      have hifn : (uid != c.author) = false := by
        simp [bne, hau]
      constructor
      · intro t h
        simp [hifn] at h
      · intro d h
        simp [hifn] at h
        subst h
        exact hau
  exact ⟨key.1, commentDeleteGetObject_eq ▸ key.1, key.2,
    commentDeleteGetObject_eq ▸ key.2⟩

/-- Witness for C10 at a concrete store: user 2 fetching their own comment
gets the comment back (never the redirect branch), in both views. -/
theorem c10_witness :
    (∀ t, commentUpdateGetObject exStore 2 3 7 ≠
        GetObjectResult.redirectUrl t)
    ∧ (∀ t, commentDeleteGetObject exStore 2 3 7 ≠
        GetObjectResult.redirectUrl t)
    ∧ (∀ c, commentUpdateGetObject exStore 2 3 7 =
        GetObjectResult.obj c → c.author = 2)
    ∧ (∀ c, commentDeleteGetObject exStore 2 3 7 =
        GetObjectResult.obj c → c.author = 2) :=
  c10_mismatch_branch_unreachable exStore 2 3 7

/-- Claim C1, counterexample: the published post whose category is
unpublished IS returned by the filter when its own author requests with the
author-access flag on — the author bypass Q(author=user) is OR-ed against the
whole conjunction, category condition included. -/
theorem c1_counterexample :
    exCategoryHidden.is_published = false
    ∧ exPostHiddenCat.category = some exCategoryHidden.id
    ∧ exCategoryHidden ∈ exStore.categories
    ∧ annotatePost exStore exPostHiddenCat ∈
        get_filtered_related_posts exStore exStore.posts 1
          (Identity.user exPostHiddenCat.author) true := by
  decide

/-- Claim C1, amended: a post whose referenced category is unpublished is
absent from the filtered result for every requesting identity and flag
combination EXCEPT when the requester is the post's own author and the
author-access flag is set — the author bypass covers the category condition
along with the post's own published flag and timestamp. -/
theorem c1_amended_category_gating (st : Store) (posts : List Post)
    (now : Int) (P : Post) (c : Category) (hc : c ∈ st.categories)
    (hcid : P.category = some c.id) (hunpub : c.is_published = false)
    (hnodup : (st.categories.map Category.id).Nodup) :
    (∀ ident flag, ¬(flag = true ∧ ident = Identity.user P.author) →
        ∀ ap ∈ get_filtered_related_posts st posts now ident flag,
          ap.post ≠ P)
    ∧ (P ∈ posts → annotatePost st P ∈
        get_filtered_related_posts st posts now (Identity.user P.author)
          true) := by
  have hpub : publiclyVisible st.categories now P = false :=
    publiclyVisible_false_of_hidden_cat hc hcid hunpub hnodup
  constructor
  · intro ident flag hnot ap hap hEq
    obtain ⟨q, hq, hvq, hxq⟩ := mem_filtered_iff.1 hap
    have hxp : ap.post = q := congrArg AnnotatedPost.post hxq
    have hqP : q = P := by rw [← hxp, hEq]
    rw [hqP] at hvq
    cases ident with
    | anonymous =>
      rw [show postVisible st.categories now Identity.anonymous flag P =
        publiclyVisible st.categories now P from rfl, hpub] at hvq
      exact Bool.false_ne_true hvq
    | user uid =>
      cases flag with
      | false =>
        rw [show postVisible st.categories now (Identity.user uid) false P =
          publiclyVisible st.categories now P from rfl, hpub] at hvq
        exact Bool.false_ne_true hvq
      | true =>
        rw [show postVisible st.categories now (Identity.user uid) true P =
          (publiclyVisible st.categories now P || (P.author == uid))
          from rfl, hpub] at hvq
        rw [Bool.false_or] at hvq
        exact hnot ⟨rfl, by rw [eq_of_beq hvq]⟩
  · intro hP
    refine mem_filtered_iff.2 ⟨P, hP, ?_, rfl⟩
    simp [postVisible]

/-- Witness for C1's amended theorem at a concrete store: the hidden-category
post is absent for the anonymous public listing and present for its author
with the author-access flag. -/
theorem c1_witness :
    (exCategoryHidden ∈ exStore.categories
      ∧ exPostHiddenCat.category = some exCategoryHidden.id
      ∧ exCategoryHidden.is_published = false
      ∧ (exStore.categories.map Category.id).Nodup)
    ∧ annotatePost exStore exPostHiddenCat ∉
        get_filtered_related_posts exStore exStore.posts 1
          Identity.anonymous false
    ∧ annotatePost exStore exPostHiddenCat ∈
        get_filtered_related_posts exStore exStore.posts 1
          (Identity.user exPostHiddenCat.author) true :=
  ⟨by decide,
   fun hmem =>
     (c1_amended_category_gating exStore exStore.posts 1 exPostHiddenCat
       exCategoryHidden (by decide) (by decide) (by decide) (by decide)).1
       Identity.anonymous false (by decide) _ hmem rfl,
   (c1_amended_category_gating exStore exStore.posts 1 exPostHiddenCat
     exCategoryHidden (by decide) (by decide) (by decide) (by decide)).2
     (by decide)⟩

/-- Claim C2, counterexample: user 1 attempts to delete comment 7 authored by
user 2; the outcome is not-found with the store unchanged — not the
redirect-to-post-detail Deny the claim demands. -/
theorem c2_counterexample :
    commentDeleteView exStore (Identity.user 1) 3 7 =
      (MutationOutcome.notFound, exStore)
    ∧ exCommentV ∈ exStore.comments
    ∧ exCommentV.author = 2
    ∧ MutationOutcome.notFound ≠
        MutationOutcome.redirect (Target.postDetail 3) := by
  decide

/-- Claim C2, amended: for post delete, comment edit and comment delete, a
mutation request by an authenticated identity that is not the resource's
author yields a not-found outcome (the candidate queryset is pre-filtered to
the requester's own resources), not a redirect, and the resource remains in
the store. -/
theorem c2_amended_nonowner_not_found (st : Store) (u : Nat) (post_id : Nat)
    (newText : String) (c : Comment) (hc : c ∈ st.comments)
    (hcau : c.author ≠ u) (hcnodup : (st.comments.map Comment.id).Nodup)
    (p : Post) (hp : p ∈ st.posts) (hpau : p.author ≠ u)
    (hpnodup : (st.posts.map Post.id).Nodup) :
    commentDeleteView st (Identity.user u) post_id c.id =
      (MutationOutcome.notFound, st)
    ∧ commentEditView st (Identity.user u) post_id c.id newText =
      (MutationOutcome.notFound, st)
    ∧ postDeleteView st (Identity.user u) p.id =
      (MutationOutcome.notFound, st)
    ∧ c ∈ (commentDeleteView st (Identity.user u) post_id c.id).2.comments
    ∧ p ∈ (postDeleteView st (Identity.user u) p.id).2.posts := by
  have hcfind := find_author_filtered_comment_none hc hcau hcnodup
  have hpfind := find_author_filtered_post_none hp hpau hpnodup
  have h1 : commentDeleteView st (Identity.user u) post_id c.id =
      (MutationOutcome.notFound, st) := by
    show (match commentDeleteGetObject st u post_id c.id with
      | .notFound => (MutationOutcome.notFound, st)
      | .redirectUrl t => (MutationOutcome.redirect t, st)
      | .obj d =>
        (MutationOutcome.success (Target.postDetail post_id),
          { st with comments := st.comments.filter fun e => !(e.id == d.id) }))
      = (MutationOutcome.notFound, st)
    unfold commentDeleteGetObject
    rw [hcfind]
  have h2 : commentEditView st (Identity.user u) post_id c.id newText =
      (MutationOutcome.notFound, st) := by
    show (match commentUpdateGetObject st u post_id c.id with
      | .notFound => (MutationOutcome.notFound, st)
      | .redirectUrl t => (MutationOutcome.redirect t, st)
      | .obj d =>
        (MutationOutcome.success (Target.postDetail post_id),
          { st with comments := st.comments.map fun e =>
              if e.id == d.id then { e with text := newText } else e }))
      = (MutationOutcome.notFound, st)
    unfold commentUpdateGetObject
    rw [hcfind]
  have h3 : postDeleteView st (Identity.user u) p.id =
      (MutationOutcome.notFound, st) := by
    unfold postDeleteView postDeleteGetQueryset
    rw [hpfind]
  exact ⟨h1, h2, h3, by rw [h1]; exact hc, by rw [h3]; exact hp⟩

/-- Witness for C2's amended theorem at a concrete store: user 1 against
user 2's comment and user 3's post. -/
theorem c2_witness :
    (exCommentV ∈ exStore.comments ∧ exCommentV.author ≠ 1
      ∧ (exStore.comments.map Comment.id).Nodup
      ∧ exPostNoCat ∈ exStore.posts ∧ exPostNoCat.author ≠ 1
      ∧ (exStore.posts.map Post.id).Nodup)
    ∧ commentDeleteView exStore (Identity.user 1) 3 exCommentV.id =
        (MutationOutcome.notFound, exStore)
    ∧ commentEditView exStore (Identity.user 1) 3 exCommentV.id "x" =
        (MutationOutcome.notFound, exStore)
    ∧ postDeleteView exStore (Identity.user 1) exPostNoCat.id =
        (MutationOutcome.notFound, exStore)
    ∧ exCommentV ∈
        (commentDeleteView exStore (Identity.user 1) 3 exCommentV.id).2.comments
    ∧ exPostNoCat ∈
        (postDeleteView exStore (Identity.user 1) exPostNoCat.id).2.posts := by
  refine ⟨by decide, ?_⟩
  have h := c2_amended_nonowner_not_found exStore 1 3 "x" exCommentV
    (by decide) (by decide) (by decide) exPostNoCat
    (by decide) (by decide) (by decide)
  exact ⟨h.1, h.2.1, h.2.2.1, h.2.2.2.1, h.2.2.2.2⟩

/-- Claim C3, counterexample: a published, past-dated post with no category
reference is absent from the public filtered result, although the claim says
it should be publicly visible (the category join excludes NULL references). -/
theorem c3_counterexample :
    exPostNoCat ∈ exStore.posts
    ∧ exPostNoCat.is_published = true
    ∧ exPostNoCat.pub_date ≤ 1
    ∧ exPostNoCat.category = none
    ∧ annotatePost exStore exPostNoCat ∉
        get_filtered_related_posts exStore exStore.posts 1
          Identity.anonymous false := by
  decide

/-- Claim C3, amended: for an anonymous requester (or any requester when the
author-access flag is off), a post appears in the filtered result iff it is
published, past-dated, and references a category that exists in the store
and is itself published; a post with no category reference fails the
category condition and is excluded. -/
theorem c3_amended_public_visibility (st : Store) (posts : List Post)
    (now : Int) (P : Post) (ident : Identity) (flag : Bool)
    (hcond : ident = Identity.anonymous ∨ flag = false) :
    annotatePost st P ∈ get_filtered_related_posts st posts now ident flag ↔
      P ∈ posts ∧ P.is_published = true ∧ P.pub_date ≤ now ∧
        ∃ c, c ∈ st.categories ∧ P.category = some c.id ∧
          c.is_published = true := by
  rw [mem_filtered_iff]
  constructor
  · rintro ⟨q, hq, hvq, hxq⟩
    have hqP : q = P := (annotatePost_inj hxq).symm
    rw [hqP] at hq hvq
    rw [postVisible_public hcond] at hvq
    have h := publiclyVisible_iff.1 hvq
    exact ⟨hq, h.1, h.2.1, h.2.2⟩
  · rintro ⟨hP, h1, h2, c, hc, hcid, hcp⟩
    refine ⟨P, hP, ?_, rfl⟩
    rw [postVisible_public hcond]
    exact publiclyVisible_iff.2 ⟨h1, h2, c, hc, hcid, hcp⟩

/-- Witness for C3's amended theorem at a concrete store: the iff holds for
the fully public post under an anonymous request. -/
theorem c3_witness :
    (Identity.anonymous = Identity.anonymous ∨ false = false)
    ∧ (annotatePost exStore exPostPub ∈
        get_filtered_related_posts exStore exStore.posts 1
          Identity.anonymous false ↔
      exPostPub ∈ exStore.posts ∧ exPostPub.is_published = true ∧
        exPostPub.pub_date ≤ 1 ∧
        ∃ c, c ∈ exStore.categories ∧ exPostPub.category = some c.id ∧
          c.is_published = true) :=
  ⟨Or.inl rfl,
   c3_amended_public_visibility exStore exStore.posts 1 exPostPub
     Identity.anonymous false (Or.inl rfl)⟩

/-- Claim C4: a post that is not publicly visible is returned by the detail
view to its own author, while the same request from the anonymous identity
or from any other authenticated user resolves to none, the not-found
outcome. -/
theorem c4_hidden_post_detail (st : Store) (now : Int) (P : Post)
    (hmem : P ∈ st.posts) (hnodup : (st.posts.map Post.id).Nodup)
    (hhidden : publiclyVisible st.categories now P = false) :
    postDetailGetObject st now (Identity.user P.author) P.id =
      some (annotatePost st P)
    ∧ postDetailGetObject st now Identity.anonymous P.id = none
    ∧ ∀ uid, uid ≠ P.author →
        postDetailGetObject st now (Identity.user uid) P.id = none := by
  have habs : ∀ ident, postVisible st.categories now ident true P = false →
      postDetailGetObject st now ident P.id = none := by
    intro ident hvis
    unfold postDetailGetObject
    rw [List.find?_eq_none]
    intro x hx hbeq
    obtain ⟨q, hq, hvq, hxq⟩ := mem_filtered_iff.1 hx
    have hxp : x.post = q := congrArg AnnotatedPost.post hxq
    have hqid : q.id = P.id := by rw [← hxp]; exact eq_of_beq hbeq
    have hqP : q = P := List.inj_on_of_nodup_map hnodup hq hmem hqid
    rw [hqP, hvis] at hvq
    exact Bool.false_ne_true hvq
  refine ⟨?_, ?_, ?_⟩
  · have hvisP : postVisible st.categories now (Identity.user P.author)
        true P = true := by
      simp [postVisible]
    have hmemL : annotatePost st P ∈ get_filtered_related_posts st st.posts
        now (Identity.user P.author) true :=
      mem_filtered_iff.2 ⟨P, hmem, hvisP, rfl⟩
    unfold postDetailGetObject
    cases hfind : (get_filtered_related_posts st st.posts now
        (Identity.user P.author) true).find? (fun ap => ap.post.id == P.id) with
    | none =>
      have hcontra := List.find?_eq_none.1 hfind _ hmemL
      simp [annotatePost] at hcontra
    | some x =>
      obtain ⟨q, hq, hvq, hxq⟩ :=
        mem_filtered_iff.1 (List.mem_of_find?_eq_some hfind)
      have hxp : x.post = q := congrArg AnnotatedPost.post hxq
      have hpred := List.find?_some hfind
      have hqid : q.id = P.id := by
        rw [← hxp]; exact eq_of_beq hpred
      have hqP : q = P := List.inj_on_of_nodup_map hnodup hq hmem hqid
      rw [hxq, hqP]
  · exact habs Identity.anonymous
      ((show postVisible st.categories now Identity.anonymous true P =
        publiclyVisible st.categories now P from rfl).trans hhidden)
  · intro uid hne
    refine habs (Identity.user uid) ?_
    rw [show postVisible st.categories now (Identity.user uid) true P =
      (publiclyVisible st.categories now P || (P.author == uid)) from rfl,
      hhidden, Bool.false_or]
    exact beq_eq_false_iff_ne.2 (Ne.symm hne)

/-- Witness for C4 at a concrete store: the hidden-category post is served to
its author (id 7) and resolves to none for the anonymous identity and for
user 3. -/
theorem c4_witness :
    (exPostHiddenCat ∈ exStore.posts
      ∧ (exStore.posts.map Post.id).Nodup
      ∧ publiclyVisible exStore.categories 1 exPostHiddenCat = false)
    ∧ postDetailGetObject exStore 1 (Identity.user exPostHiddenCat.author)
        exPostHiddenCat.id = some (annotatePost exStore exPostHiddenCat)
    ∧ postDetailGetObject exStore 1 Identity.anonymous
        exPostHiddenCat.id = none
    ∧ postDetailGetObject exStore 1 (Identity.user 3)
        exPostHiddenCat.id = none :=
  ⟨by decide,
   (c4_hidden_post_detail exStore 1 exPostHiddenCat (by decide) (by decide)
     (by decide)).1,
   (c4_hidden_post_detail exStore 1 exPostHiddenCat (by decide) (by decide)
     (by decide)).2.1,
   (c4_hidden_post_detail exStore 1 exPostHiddenCat (by decide) (by decide)
     (by decide)).2.2 3 (by decide)⟩

/-- Unfolding equation for get_page with the let bindings resolved. -/
lemma get_page_eq {α : Type} (items : List α) (number : Int) (pp : Nat) :
    get_page items number pp =
      (items.drop
        (((if number < 1 ∨ ((num_pages items.length pp : Nat) : Int) < number
            then num_pages items.length pp else number.toNat) - 1) * pp)).take
        pp := rfl

/-- Clamping behavior of get_page at page size 10: a page number beyond the
last page produces exactly the last page, which has at most 10 items and is
nonempty whenever the sequence is. -/
lemma get_page_out_of_range {α : Type} (items : List α) (page : Int)
    (h : ((num_pages items.length 10 : Nat) : Int) < page) :
    get_page items page 10 =
      get_page items ((num_pages items.length 10 : Nat) : Int) 10
    ∧ (get_page items page 10).length ≤ 10
    ∧ (items ≠ [] → get_page items page 10 ≠ []) := by
  have hnp1 : 1 ≤ num_pages items.length 10 := le_max_left 1 _
  have hsame : get_page items page 10 =
      get_page items ((num_pages items.length 10 : Nat) : Int) 10 := by
    rw [get_page_eq, get_page_eq]
    rw [if_pos (Or.inr h)]
    rw [if_neg ?hng, Int.toNat_natCast]
    case hng =>
      push_neg
      constructor
      · exact_mod_cast hnp1
      · exact le_refl _
  refine ⟨hsame, List.length_take_le _ _, ?_⟩
  intro hne hnil
  have hlen : 1 ≤ items.length := List.length_pos.2 hne
  have hlt : (num_pages items.length 10 - 1) * 10 < items.length := by
    unfold num_pages
    have hq10 : ((items.length + 10 - 1) / 10) * 10 ≤ items.length + 10 - 1 :=
      Nat.div_mul_le_self _ _
    have hq1 : 1 ≤ (items.length + 10 - 1) / 10 :=
      (Nat.le_div_iff_mul_le (by omega)).2 (by omega)
    omega
  rw [hsame, get_page_eq] at hnil
  have hlennil := congrArg List.length hnil
  rw [List.length_take, List.length_drop] at hlennil
  have hcond : ¬(((num_pages items.length 10 : Nat) : Int) < 1 ∨
      ((num_pages items.length 10 : Nat) : Int) <
        ((num_pages items.length 10 : Nat) : Int)) := by
    push_neg
    exact ⟨by exact_mod_cast hnp1, le_refl _⟩
  rw [if_neg hcond, Int.toNat_natCast] at hlennil
  simp only [List.length_nil] at hlennil
  omega

/-- Claim C8: all three listings paginate the ordered filtered sequence with
a fixed page size of 10 and clamp a page number beyond the last valid page to
the last page instead of erroring or returning an empty result. -/
theorem c8_pagination_clamps (st : Store) (now : Int) (ident : Identity)
    (author_id cat_id : Nat) (page : Int)
    (h1 : ((num_pages (indexSequence st now ident).length 10 : Nat) : Int)
      < page)
    (h2 : ((num_pages (profileSequence st now ident author_id).length 10 :
      Nat) : Int) < page)
    (h3 : ((num_pages (categorySequence st now ident cat_id).length 10 :
      Nat) : Int) < page) :
    (postListPage st now ident page =
        postListPage st now ident
          ((num_pages (indexSequence st now ident).length 10 : Nat) : Int)
      ∧ (postListPage st now ident page).length ≤ 10
      ∧ (indexSequence st now ident ≠ [] →
          postListPage st now ident page ≠ []))
    ∧ (profilePage st now ident author_id page =
        profilePage st now ident author_id
          ((num_pages (profileSequence st now ident author_id).length 10 :
            Nat) : Int)
      ∧ (profilePage st now ident author_id page).length ≤ 10
      ∧ (profileSequence st now ident author_id ≠ [] →
          profilePage st now ident author_id page ≠ []))
    ∧ (categoryPage st now ident cat_id page =
        categoryPage st now ident cat_id
          ((num_pages (categorySequence st now ident cat_id).length 10 :
            Nat) : Int)
      ∧ (categoryPage st now ident cat_id page).length ≤ 10
      ∧ (categorySequence st now ident cat_id ≠ [] →
          categoryPage st now ident cat_id page ≠ [])) :=
  ⟨get_page_out_of_range (indexSequence st now ident) page h1,
   get_page_out_of_range (profileSequence st now ident author_id) page h2,
   get_page_out_of_range (categorySequence st now ident cat_id) page h3⟩

/-- Witness for C8 at a concrete store: each listing sequence has one item,
so one page; requesting page 5 clamps to page 1 and returns that item. -/
theorem c8_witness :
    (((num_pages (indexSequence exStore 1 Identity.anonymous).length 10 :
        Nat) : Int) < 5
      ∧ ((num_pages
          (profileSequence exStore 1 Identity.anonymous 7).length 10 :
        Nat) : Int) < 5
      ∧ ((num_pages
          (categorySequence exStore 1 Identity.anonymous 2).length 10 :
        Nat) : Int) < 5)
    ∧ postListPage exStore 1 Identity.anonymous 5 =
        postListPage exStore 1 Identity.anonymous
          ((num_pages (indexSequence exStore 1 Identity.anonymous).length 10 :
            Nat) : Int)
    ∧ (postListPage exStore 1 Identity.anonymous 5).length ≤ 10
    ∧ (indexSequence exStore 1 Identity.anonymous ≠ [] →
        postListPage exStore 1 Identity.anonymous 5 ≠ []) := by
  refine ⟨by decide, ?_⟩
  have h := c8_pagination_clamps exStore 1 Identity.anonymous 7 2 5
    (by decide) (by decide) (by decide)
  exact ⟨h.1.1, h.1.2.1, h.1.2.2⟩

end Blogicum
